import Mathlib

/-!
Verification of the Rating Aggregation & Scoring Engine of the Reyting
repository against its specification.

The engine lives in SQL scripts.  The central one is the "FIX: Zero Rating
Scores" script (`fix_zero_scores.sql`): inside one transaction it backfills
`rating_type` / `is_penalty` on `dim_indicator` from the criterion-code
naming convention, deletes `fact_summary`, and rebuilds it from
`fact_indicator` joined with `dim_indicator`, grouping by `(mo_id,
period_id)`, with `GREATEST(0, ...)` as the total and a CASE expression for
the zone.  Secondary scripts modelled here:
`etl/fill_rating_data.sql` (summary insert without the zero floor),
`backend/migrations/fill_rating_data_compact.sql` (hard-coded scores and
zones, methodology lookup via CROSS JOIN), and
`backend/migrations/fix_fact_indicator_scores.sql` (NULL-score backfill).

Scores are SQL `numeric` values, modelled as `ℚ`; nullable columns are
`Option`; table states are lists of row structures.
-/

namespace Reyting

/-- A `dim_indicator` row: the criteria-catalog entry.  `rating_type` is a
nullable VARCHAR (`'ПУБЛИЧНЫЙ'` / `'ЗАКРЫТЫЙ'`), `is_penalty` a boolean with
default FALSE. -/
structure DimIndicator where
  ind_id : Nat
  code : String
  rating_type : Option String
  is_penalty : Bool
deriving DecidableEq

/-- A `fact_indicator` row: one raw observation.  `value_raw` and `score`
are nullable numerics. -/
structure FactIndicator where
  mo_id : Nat
  period_id : Nat
  ind_id : Nat
  version_id : Nat
  value_raw : Option ℚ
  score : Option ℚ
deriving DecidableEq

/-- A `fact_penalty` row (used only by `etl/fill_rating_data.sql`). -/
structure FactPenalty where
  mo_id : Nat
  period_id : Nat
  version_id : Nat
  score_negative : ℚ
deriving DecidableEq

/-- A `fact_summary` row: the stored aggregate. -/
structure FactSummary where
  mo_id : Nat
  period_id : Nat
  version_id : Nat
  score_public : ℚ
  score_closed : ℚ
  score_penalties : ℚ
  score_total : ℚ
  zone : String
  updated_at : Nat
deriving DecidableEq

/-- A `dim_methodology` row. -/
structure DimMethodology where
  version_id : Nat
  version : String
deriving DecidableEq

/-- The database state touched by the fix-zero-scores script. -/
structure DB where
  dim_indicator : List DimIndicator
  fact_indicator : List FactIndicator
  fact_summary : List FactSummary
  dim_methodology : List DimMethodology
deriving DecidableEq

/-- `code LIKE 'pub_%'`. -/
def likePub (code : String) : Bool := List.isPrefixOf "pub_".data code.data

/-- `code LIKE 'closed_%'`. -/
def likeClosed (code : String) : Bool := List.isPrefixOf "closed_".data code.data

/-- `code LIKE 'pen_%'`. -/
def likePen (code : String) : Bool := List.isPrefixOf "pen_".data code.data

/-- `UPDATE dim_indicator SET rating_type = 'ПУБЛИЧНЫЙ' WHERE code LIKE
'pub_%' AND rating_type IS NULL`, effect on one row. -/
def step1Pub (di : DimIndicator) : DimIndicator :=
  if likePub di.code && di.rating_type.isNone then
    { di with rating_type := some "ПУБЛИЧНЫЙ" }
  else di

/-- `UPDATE dim_indicator SET rating_type = 'ЗАКРЫТЫЙ' WHERE code LIKE
'closed_%' AND rating_type IS NULL`, effect on one row. -/
def step1Closed (di : DimIndicator) : DimIndicator :=
  if likeClosed di.code && di.rating_type.isNone then
    { di with rating_type := some "ЗАКРЫТЫЙ" }
  else di

/-- `UPDATE dim_indicator SET is_penalty = TRUE WHERE code LIKE 'pen_%' AND
is_penalty = FALSE`, effect on one row. -/
def step1Pen (di : DimIndicator) : DimIndicator :=
  if likePen di.code && !di.is_penalty then
    { di with is_penalty := true }
  else di

/-- STEP 1 of the fix-zero-scores script: the three backfill UPDATEs in
script order, effect on one catalog row. -/
def repairIndicator (di : DimIndicator) : DimIndicator :=
  step1Pen (step1Closed (step1Pub di))

/-- `JOIN dim_indicator di ON fi.ind_id = di.ind_id` (key lookup;
`ind_id` is the primary key of `dim_indicator`). -/
def findIndicator (cat : List DimIndicator) (ind : Nat) : Option DimIndicator :=
  cat.find? (fun di => di.ind_id == ind)

/-- The numeric value a non-null-filtered row contributes: `score` with
NULL read as 0 (rows with NULL score are filtered out before this is used,
so the default is never observable in the rebuild). -/
def scoreOf (fi : FactIndicator) : ℚ := fi.score.getD 0

/-- One row of the rebuild's joined, filtered relation for group
`(mo, p)`: the observation must carry this group key, have a non-NULL
score (`WHERE fi.score IS NOT NULL`), and join to a catalog row. -/
def joinRow (cat : List DimIndicator) (mo p : Nat) (fi : FactIndicator) :
    Option (FactIndicator × DimIndicator) :=
  if fi.mo_id == mo && fi.period_id == p && fi.score.isSome then
    (findIndicator cat fi.ind_id).map (fun di => (fi, di))
  else none

/-- All joined rows of group `(mo, p)`. -/
def rowsFor (cat : List DimIndicator) (obs : List FactIndicator) (mo p : Nat) :
    List (FactIndicator × DimIndicator) :=
  obs.filterMap (joinRow cat mo p)

/-- `di.rating_type = 'ПУБЛИЧНЫЙ'` (SQL equality; NULL compares false). -/
def isPub (di : DimIndicator) : Bool := di.rating_type == some "ПУБЛИЧНЫЙ"

/-- `di.rating_type = 'ЗАКРЫТЫЙ'`. -/
def isClosedT (di : DimIndicator) : Bool := di.rating_type == some "ЗАКРЫТЫЙ"

/-- `di.is_penalty = TRUE`. -/
def isPen (di : DimIndicator) : Bool := di.is_penalty

/-- `COALESCE(SUM(CASE WHEN sel THEN fi.score ELSE 0 END), 0)` over the
joined rows of one group. -/
def caseSum (rows : List (FactIndicator × DimIndicator))
    (sel : DimIndicator → Bool) : ℚ :=
  (rows.map (fun r => if sel r.2 then scoreOf r.1 else 0)).sum

/-- The zone CASE of the fix-zero-scores script (Russian labels). -/
def zoneOf (t : ℚ) : String :=
  if 53 ≤ t then "Зелёная" else if 29 ≤ t then "Жёлтая" else "Красная"

/-- One rebuilt `fact_summary` row for group key `(mo, p)`:
`GREATEST(0.0, score_public + score_closed + score_penalties)` as total,
`1 as version_id`, `NOW()` passed in as `now`. -/
def summaryRow (cat : List DimIndicator) (obs : List FactIndicator)
    (now : Nat) (key : Nat × Nat) : FactSummary :=
  let rows := rowsFor cat obs key.1 key.2
  let sp := caseSum rows isPub
  let sc := caseSum rows isClosedT
  let spen := caseSum rows isPen
  let st := max 0 (sp + sc + spen)
  { mo_id := key.1, period_id := key.2, version_id := 1,
    score_public := sp, score_closed := sc, score_penalties := spen,
    score_total := st, zone := zoneOf st, updated_at := now }

/-- The `GROUP BY fi.mo_id, fi.period_id` keys: distinct `(mo, period)`
pairs among observations that survive the join and the non-NULL filter. -/
def groupKeys (cat : List DimIndicator) (obs : List FactIndicator) :
    List (Nat × Nat) :=
  (obs.filterMap (fun fi =>
    if fi.score.isSome && (findIndicator cat fi.ind_id).isSome then
      some (fi.mo_id, fi.period_id)
    else none)).dedup

/-- The full rebuild INSERT: one row per group key. -/
def rebuildSummary (cat : List DimIndicator) (obs : List FactIndicator)
    (now : Nat) : List FactSummary :=
  (groupKeys cat obs).map (summaryRow cat obs now)

/-- Statement: the `pub_%` backfill UPDATE. -/
def updPubStmt (db : DB) : DB :=
  { db with dim_indicator := db.dim_indicator.map step1Pub }

/-- Statement: the `closed_%` backfill UPDATE. -/
def updClosedStmt (db : DB) : DB :=
  { db with dim_indicator := db.dim_indicator.map step1Closed }

/-- Statement: the `pen_%` backfill UPDATE. -/
def updPenStmt (db : DB) : DB :=
  { db with dim_indicator := db.dim_indicator.map step1Pen }

/-- Statement: `DELETE FROM fact_summary`. -/
def deleteStmt (db : DB) : DB := { db with fact_summary := [] }

/-- Statement: the rebuild `INSERT INTO fact_summary`.  The schema
(`src/unnamed/part_004`) declares `fact_summary.version_id NOT NULL
REFERENCES dim_methodology(version_id)`, so the real INSERT succeeds only
when the inserted version (the constant 1) exists in `dim_methodology`;
this models that success path, and every database state the theorems below
evaluate it at carries version 1 in its methodology catalog. -/
def insertStmt (now : Nat) (db : DB) : DB :=
  { db with fact_summary :=
      db.fact_summary ++ rebuildSummary db.dim_indicator db.fact_indicator now }

/-- The whole fix-zero-scores run: the five mutating statements in script
order. -/
def fixZeroScoresRun (db : DB) (now : Nat) : DB :=
  insertStmt now (deleteStmt (updPenStmt (updClosedStmt (updPubStmt db))))

/-- A summary row without its `updated_at` column (every other column). -/
def summarySansTime (r : FactSummary) :
    Nat × Nat × Nat × ℚ × ℚ × ℚ × ℚ × String :=
  (r.mo_id, r.period_id, r.version_id, r.score_public, r.score_closed,
   r.score_penalties, r.score_total, r.zone)

/-- `UPDATE fact_indicator SET score = value_raw WHERE score IS NULL AND
value_raw IS NOT NULL` (from `fix_fact_indicator_scores.sql`), one row. -/
def fixNullFromRaw (fi : FactIndicator) : FactIndicator :=
  if fi.score.isNone && fi.value_raw.isSome then
    { fi with score := fi.value_raw }
  else fi

/-- `UPDATE fact_indicator SET score = 0 WHERE score IS NULL` (second
UPDATE of `fix_fact_indicator_scores.sql`), one row. -/
def fixNullZero (fi : FactIndicator) : FactIndicator :=
  if fi.score.isNone then { fi with score := some 0 } else fi

/-- The two NULL-score repair UPDATEs in script order, one row. -/
def repairObservation (fi : FactIndicator) : FactIndicator :=
  fixNullZero (fixNullFromRaw fi)

/-- Postgres `ROUND(x, 0)` on `numeric`: round half away from zero. -/
def pgRound (q : ℚ) : ℚ :=
  if 0 ≤ q then ((⌊q + 1/2⌋ : ℤ) : ℚ) else -((⌊-q + 1/2⌋ : ℤ) : ℚ)

/-- The observations of `(mo, p, v)` used by the `etl/fill_rating_data.sql`
summary subselects. -/
def fillObs (obs : List FactIndicator) (mo p v : Nat) : List FactIndicator :=
  obs.filter (fun fi =>
    fi.mo_id == mo && fi.period_id == p && fi.version_id == v)

/-- `ind_id IN (SELECT ind_id FROM dim_indicator WHERE code IN codes)`. -/
def indCodeIn (cat : List DimIndicator) (codes : List String) (ind : Nat) :
    Bool :=
  cat.any (fun di => di.ind_id == ind && codes.contains di.code)

/-- The public-criterion codes of `etl/fill_rating_data.sql` ('1'..'13'). -/
def fillPubCodes : List String :=
  ["1", "2", "3", "4", "5", "6", "7", "8", "9", "10", "11", "12", "13"]

/-- The closed-criterion codes of `etl/fill_rating_data.sql` ('14'..'17'). -/
def fillClosedCodes : List String := ["14", "15", "16", "17"]

/-- `COALESCE((SELECT SUM(score) ... AND ind_id IN codes), 0)`. -/
def fillCodeSum (cat : List DimIndicator) (obs : List FactIndicator)
    (codes : List String) (mo p v : Nat) : ℚ :=
  (((fillObs obs mo p v).filter
      (fun fi => indCodeIn cat codes fi.ind_id)).map scoreOf).sum

/-- `COALESCE((SELECT SUM(score_negative) FROM fact_penalty ...), 0)`. -/
def fillPenSum (pens : List FactPenalty) (mo p v : Nat) : ℚ :=
  ((pens.filter (fun pe =>
      pe.mo_id == mo && pe.period_id == p && pe.version_id == v)).map
    (fun pe => pe.score_negative)).sum

/-- The fill script's `score_total`: `ROUND(SUM(all indicator scores) +
SUM(score_negative), 0)` — note: no `GREATEST(0, ...)` floor. -/
def fillScoreTotal (obs : List FactIndicator) (pens : List FactPenalty)
    (mo p v : Nat) : ℚ :=
  pgRound (((fillObs obs mo p v).map scoreOf).sum + fillPenSum pens mo p v)

/-- The fill script's zone CASE (English labels), applied to the same
total expression. -/
def zoneOfEn (t : ℚ) : String :=
  if 53 ≤ t then "green" else if 29 ≤ t then "yellow" else "red"

/-- One `fact_summary` row of the `etl/fill_rating_data.sql` INSERT for
municipality `mo` (period `p`, version `v`). -/
def fillSummaryRow (cat : List DimIndicator) (obs : List FactIndicator)
    (pens : List FactPenalty) (mo p v : Nat) : FactSummary :=
  { mo_id := mo, period_id := p, version_id := v,
    score_public := fillCodeSum cat obs fillPubCodes mo p v,
    score_closed := fillCodeSum cat obs fillClosedCodes mo p v,
    score_penalties := fillPenSum pens mo p v,
    score_total := fillScoreTotal obs pens mo p v,
    zone := zoneOfEn (fillScoreTotal obs pens mo p v),
    updated_at := 0 }

/-- `score_total` CASE of `fill_rating_data_compact.sql`, hard-coded per
`mo_id`.  The ELSE branch of the source is `ROUND(RANDOM() * 40 + 20)`
(nondeterministic) and is represented by `none`; every theorem below uses
only the deterministic arms. -/
def compactScoreTotal (mo : Nat) : Option ℚ :=
  if mo = 1 then some 61
  else if mo = 2 then some 56
  else if mo = 3 then some 56
  else if mo = 4 then some 52
  else if mo = 5 then some 48
  else if mo = 6 then some 36
  else if mo = 7 then some 34
  else if mo = 8 then some 34
  else if mo = 9 then some 34
  else if mo = 10 then some 34
  else if mo = 11 then some 29
  else if mo = 12 then some 29
  else if mo = 13 then some 26
  else if 14 ≤ mo ∧ mo ≤ 20 then some 25
  else none

/-- `zone` CASE of `fill_rating_data_compact.sql`, hard-coded per `mo_id`
(deterministic: ELSE is `'red'`). -/
def compactZone (mo : Nat) : String :=
  if mo = 1 then "green"
  else if mo = 2 ∨ mo = 3 ∨ mo = 4 then "green"
  else if 5 ≤ mo ∧ mo ≤ 12 then "yellow"
  else "red"

/-- `SELECT version_id FROM dim_methodology WHERE version = 'v1.0'
LIMIT 1`. -/
def lookupV10 (ms : List DimMethodology) : Option Nat :=
  (ms.find? (fun m => m.version == "v1.0")).map (fun m => m.version_id)

/-- The `(mo_id, period_id, version_id)` keys produced by the compact fill
INSERT's `FROM dim_mo CROSS JOIN (period) CROSS JOIN (version lookup)`:
when the methodology lookup is empty the cross join is empty and no row is
inserted (silently — no error is raised). -/
def compactInsertKeys (mos : List Nat) (ms : List DimMethodology)
    (p : Nat) : List (Nat × Nat × Nat) :=
  match lookupV10 ms with
  | none => []
  | some v => mos.map (fun mo => (mo, p, v))

/-- Fold a statement list over a database state. -/
def applyAll (fs : List (DB → DB)) (db : DB) : DB :=
  fs.foldl (fun d f => f d) db

/-- A SQL script split into statements before the transaction and
statements inside the `BEGIN TRANSACTION ... COMMIT` block. -/
structure SqlTxnScript where
  preTxn : List (DB → DB)
  txn : List (DB → DB)

/-- Run a script to completion. -/
def runAll (s : SqlTxnScript) (db : DB) : DB :=
  applyAll s.txn (applyAll s.preTxn db)

/-- Run a script that fails at its `k`-th statement (0-based, counting
over `preTxn ++ txn`): completed pre-transaction statements persist, and a
failure at or after the transaction start rolls the transaction's effects
back to the state reached before `BEGIN`. -/
def runFailAt (s : SqlTxnScript) (k : Nat) (db : DB) : DB :=
  if k < s.preTxn.length then applyAll (s.preTxn.take k) db
  else applyAll s.preTxn db

/-- The fix-zero-scores script: all five mutating statements lie inside the
single `BEGIN TRANSACTION ... COMMIT` block; nothing mutates before it. -/
def fixZeroScript (now : Nat) : SqlTxnScript :=
  { preTxn := [],
    txn := [updPubStmt, updClosedStmt, updPenStmt, deleteStmt,
            insertStmt now] }

/-- A catalog row carries exactly one classification: public, closed, or
penalty (the spec's mutual-exclusivity assumption on the two columns
`rating_type` / `is_penalty`). -/
def wellClassified (di : DimIndicator) : Prop :=
  (di.rating_type = some "ПУБЛИЧНЫЙ" ∧ di.is_penalty = false) ∨
  (di.rating_type = some "ЗАКРЫТЫЙ" ∧ di.is_penalty = false) ∨
  (di.is_penalty = true ∧ di.rating_type ≠ some "ПУБЛИЧНЫЙ" ∧
    di.rating_type ≠ some "ЗАКРЫТЫЙ")

instance (di : DimIndicator) : Decidable (wellClassified di) := by
  unfold wellClassified; infer_instance

/-- The sum of all scores recorded for `(mo, p)` (NULL scores read as 0,
matching SQL `SUM` which ignores NULLs). -/
def obsSum (obs : List FactIndicator) (mo p : Nat) : ℚ :=
  ((obs.filter (fun fi => fi.mo_id == mo && fi.period_id == p)).map
    scoreOf).sum

/-! Concrete table states used by witnesses and counterexamples. -/

/-- A two-criterion catalog: one public, one penalty (already classified,
as after the official-methodology migration). -/
def catA : List DimIndicator :=
  [⟨1, "pub_1", some "ПУБЛИЧНЫЙ", false⟩,
   ⟨2, "closed_1", some "ЗАКРЫТЫЙ", false⟩,
   ⟨3, "pen_1", none, true⟩]

/-- Observations for municipality 1, period 1: public scores 3 and 5,
closed score 4, penalty score −3 (spec Scenario A). -/
def obsA : List FactIndicator :=
  [⟨1, 1, 1, 1, some 3, some 3⟩,
   ⟨1, 1, 1, 1, some 5, some 5⟩,
   ⟨1, 1, 2, 1, some 4, some 4⟩,
   ⟨1, 1, 3, 1, some (-3), some (-3)⟩]

/-- A database holding `catA` / `obsA` and nothing else. -/
def dbA : DB := ⟨catA, obsA, [], [⟨1, "v1.0"⟩]⟩

/-- A one-row catalog whose only entry has an unset classification and a
`pub_`-style code (spec Scenario E). -/
def catE : List DimIndicator := [⟨1, "pub_5", none, false⟩]

/-- One observation with score 5 of the unclassified criterion. -/
def obsE : List FactIndicator := [⟨1, 1, 1, 1, some 5, some 5⟩]

/-- Database for Scenario E.  Its methodology catalog holds version 1
(`'v1.0'`), so the foreign keys of `fact_indicator.version_id` and of the
rebuilt `fact_summary.version_id` are satisfied and the state is
reachable. -/
def dbE : DB := ⟨catE, obsE, [], [⟨1, "v1.0"⟩]⟩

/-- The Scenario-E database with a second methodology version in the
catalog: used to show the rebuild's output does not depend on which
versions the catalog holds. -/
def dbE2 : DB := ⟨catE, obsE, [], [⟨1, "v1.0"⟩, ⟨2, "v2.0"⟩]⟩

/-- The `dim_mo` entity list for the missing-row counterexample:
municipality 2 exists but has no observations in `obsE`. -/
def dimMoC8 : List Nat := [1, 2]

/-- Catalog for the fill-script counterexample: public criterion with
code '1'. -/
def catF : List DimIndicator := [⟨1, "1", none, false⟩]

/-- One observation with score 10 for municipality 1. -/
def obsF : List FactIndicator := [⟨1, 1, 1, 1, some 10, some 10⟩]

/-- One penalty of −50 for municipality 1: the penalties outweigh the
positive scores. -/
def pensF : List FactPenalty := [⟨1, 1, 1, -50⟩]

set_option maxRecDepth 10000

/-! Helper lemmas. -/

/-- A character list starting with `closed_` does not start with `pub_`. -/
lemma pubClosedDisjoint (d : List Char)
    (h : List.isPrefixOf "closed_".data d = true) :
    List.isPrefixOf "pub_".data d = false := by
  rw [show "closed_".data = 'c' :: "losed_".data from rfl] at h
  rw [show "pub_".data = 'p' :: "ub_".data from rfl]
  cases d with
  | nil => exact absurd h (by simp)
  | cons c cs =>
    simp only [List.isPrefixOf, Bool.and_eq_true, beq_iff_eq] at h
    obtain ⟨hc, -⟩ := h
    rw [← hc]
    simp only [List.isPrefixOf]
    rw [show ('p' == 'c') = false from by decide]
    simp

/-- A code starting with `closed_` does not start with `pub_`. -/
lemma likePub_eq_false_of_likeClosed (s : String) (h : likeClosed s = true) :
    likePub s = false :=
  pubClosedDisjoint s.data h

/-- Every rebuilt row is a `summaryRow` of some group key. -/
lemma mem_rebuild (cat : List DimIndicator) (obs : List FactIndicator)
    (now : Nat) (r : FactSummary) (hr : r ∈ rebuildSummary cat obs now) :
    ∃ key ∈ groupKeys cat obs, r = summaryRow cat obs now key := by
  rcases List.mem_map.mp hr with ⟨key, hk, hs⟩
  exact ⟨key, hk, hs.symm⟩

/-- Under mutual exclusivity, the three partition CASEs of one joined row
sum to its plain score. -/
lemma rowClassified (di : DimIndicator) (hw : wellClassified di) (s : ℚ) :
    (if isPub di then s else 0) + (if isClosedT di then s else 0) +
      (if isPen di then s else 0) = s := by
  rcases hw with ⟨h1, h2⟩ | ⟨h1, h2⟩ | ⟨h1, h2, h3⟩ <;>
    simp [isPub, isClosedT, isPen, h1, h2] <;> simp [h3]

/-- The three backfill UPDATEs in sequence act as one map of
`repairIndicator`. -/
lemma repair_comp : step1Pen ∘ step1Closed ∘ step1Pub = repairIndicator := rfl

lemma mapRepair (l : List DimIndicator) :
    ((l.map step1Pub).map step1Closed).map step1Pen = l.map repairIndicator := by
  simp only [List.map_map, repair_comp]

/-- The catalog repair is idempotent on one row. -/
lemma repairIndicator_idem (di : DimIndicator) :
    repairIndicator (repairIndicator di) = repairIndicator di := by
  rcases di with ⟨i, c, rt, pen⟩
  unfold repairIndicator step1Pub step1Closed step1Pen
  cases rt <;> by_cases hp : likePub c <;> by_cases hc : likeClosed c <;>
    by_cases hn : likePen c <;> cases pen <;> simp [hp, hc, hn]

/-- The repaired catalog of the run. -/
lemma run_dim_indicator (db : DB) (now : Nat) :
    (fixZeroScoresRun db now).dim_indicator =
      db.dim_indicator.map repairIndicator := by
  simp [fixZeroScoresRun, insertStmt, deleteStmt, updPenStmt, updClosedStmt,
    updPubStmt, List.map_map, repair_comp]

/-- The run leaves the observations untouched. -/
lemma run_fact_indicator (db : DB) (now : Nat) :
    (fixZeroScoresRun db now).fact_indicator = db.fact_indicator := rfl

/-- The run's summary table is exactly the rebuild over the repaired
catalog. -/
lemma run_fact_summary (db : DB) (now : Nat) :
    (fixZeroScoresRun db now).fact_summary =
      rebuildSummary (db.dim_indicator.map repairIndicator)
        db.fact_indicator now := by
  simp [fixZeroScoresRun, insertStmt, deleteStmt, updPenStmt, updClosedStmt,
    updPubStmt, List.map_map, repair_comp]

/-! Claim theorems. -/

/-- Claim C1, counterexample: in the `etl/fill_rating_data.sql` aggregation
run, with one public observation of score 10 and a penalty of −50 (a
penalty sum below `-(score_public + score_closed)`), the stored
`score_total` is −40: negative, and different from
`max 0 (score_public + score_closed + score_penalties)`. -/
theorem c1_counterexample :
    (fillSummaryRow catF obsF pensF 1 1 1).score_penalties <
        -((fillSummaryRow catF obsF pensF 1 1 1).score_public +
          (fillSummaryRow catF obsF pensF 1 1 1).score_closed) ∧
    (fillSummaryRow catF obsF pensF 1 1 1).score_total = -40 ∧
    (fillSummaryRow catF obsF pensF 1 1 1).score_total < 0 ∧
    (fillSummaryRow catF obsF pensF 1 1 1).score_total ≠
      max 0 ((fillSummaryRow catF obsF pensF 1 1 1).score_public +
        (fillSummaryRow catF obsF pensF 1 1 1).score_closed +
        (fillSummaryRow catF obsF pensF 1 1 1).score_penalties) := by
  with_unfolding_all decide

/-- Claim C1, amended: in the fix-zero-scores rebuild (the aggregation run
of `src/unnamed/part_000`), every stored row satisfies
`score_total = max 0 (score_public + score_closed + score_penalties)` and
`score_total` is never negative; the `etl/fill_rating_data.sql` run applies
no floor and can store a negative total. -/
theorem c1_rebuild_total_floor :
    ∀ (cat : List DimIndicator) (obs : List FactIndicator) (now : Nat)
      (r : FactSummary), r ∈ rebuildSummary cat obs now →
      r.score_total =
        max 0 (r.score_public + r.score_closed + r.score_penalties) ∧
      0 ≤ r.score_total := by
  intro cat obs now r hr
  obtain ⟨key, -, rfl⟩ := mem_rebuild cat obs now r hr
  exact ⟨rfl, le_max_left 0 _⟩

/-- Witness for `c1_rebuild_total_floor` at the Scenario-A data. -/
theorem c1_rebuild_total_floor_witness :
    (summaryRow catA obsA 0 (1, 1)).score_total =
      max 0 ((summaryRow catA obsA 0 (1, 1)).score_public +
        (summaryRow catA obsA 0 (1, 1)).score_closed +
        (summaryRow catA obsA 0 (1, 1)).score_penalties) ∧
    0 ≤ (summaryRow catA obsA 0 (1, 1)).score_total :=
  c1_rebuild_total_floor catA obsA 0 _ (by with_unfolding_all decide)

/-- Claim C2: the zone CASE of the rebuild is a total function of the
total score and, on all of `[-100, 200]`, returns exactly one of the three
labels, Green (`Зелёная`) iff `score_total ≥ 53`, Yellow (`Жёлтая`) iff
`29 ≤ score_total < 53`, Red (`Красная`) iff `score_total < 29` —
boundary-exact at 28/29 and 52/53. -/
theorem c2_zone_totality :
    ∀ t : ℚ, -100 ≤ t → t ≤ 200 →
      (zoneOf t = "Зелёная" ∨ zoneOf t = "Жёлтая" ∨ zoneOf t = "Красная") ∧
      (zoneOf t = "Зелёная" ↔ 53 ≤ t) ∧
      (zoneOf t = "Жёлтая" ↔ 29 ≤ t ∧ t < 53) ∧
      (zoneOf t = "Красная" ↔ t < 29) := by
  intro t h1 h2
  unfold zoneOf
  by_cases hg : (53 : ℚ) ≤ t
  · rw [if_pos hg]
    refine ⟨Or.inl rfl, ⟨fun _ => hg, fun _ => rfl⟩, ?_, ?_⟩
    · exact ⟨fun hz => absurd hz (by decide), fun hy => absurd hy.2 (by linarith)⟩
    · exact ⟨fun hz => absurd hz (by decide), fun hr => absurd hr (by linarith)⟩
  · have hlt : t < 53 := not_le.mp hg
    by_cases hy : (29 : ℚ) ≤ t
    · rw [if_neg hg, if_pos hy]
      refine ⟨Or.inr (Or.inl rfl), ?_, ⟨fun _ => ⟨hy, hlt⟩, fun _ => rfl⟩, ?_⟩
      · exact ⟨fun hz => absurd hz (by decide), fun hge => absurd hge hg⟩
      · exact ⟨fun hz => absurd hz (by decide), fun hr => absurd hr (by linarith)⟩
    · have h29 : t < 29 := not_le.mp hy
      rw [if_neg hg, if_neg hy]
      refine ⟨Or.inr (Or.inr rfl), ?_, ?_, ⟨fun _ => h29, fun _ => rfl⟩⟩
      · exact ⟨fun hz => absurd hz (by decide), fun hge => absurd hge hg⟩
      · exact ⟨fun hz => absurd hz (by decide), fun hyy => absurd hyy.1 hy⟩

/-- Witness for `c2_zone_totality` at the 52/53 boundary. -/
theorem c2_zone_totality_witness :
    ((zoneOf 53 = "Зелёная" ∨ zoneOf 53 = "Жёлтая" ∨ zoneOf 53 = "Красная") ∧
      (zoneOf 53 = "Зелёная" ↔ (53 : ℚ) ≤ 53) ∧
      (zoneOf 53 = "Жёлтая" ↔ (29 : ℚ) ≤ 53 ∧ (53 : ℚ) < 53) ∧
      (zoneOf 53 = "Красная" ↔ (53 : ℚ) < 29)) :=
  c2_zone_totality 53 (by decide) (by decide)

/-- Claim C3, counterexample: the stored aggregate written by
`fill_rating_data_compact.sql` for `mo_id = 4` has `score_total = 52` and
`zone = 'green'`, but re-applying the repository's own zone classifier to
52 yields `'yellow'`: recomputing the zone from the stored total does not
reproduce the stored value. -/
theorem c3_counterexample :
    compactScoreTotal 4 = some 52 ∧ compactZone 4 = "green" ∧
    zoneOfEn 52 = "yellow" ∧ compactZone 4 ≠ zoneOfEn 52 := by
  with_unfolding_all decide

/-- Claim C3, amended: rows produced by the fix-zero-scores rebuild do
satisfy the invariant — their stored `zone` equals the zone CASE re-applied
to their stored `score_total`; the hand-seeded rows of
`fill_rating_data_compact.sql` and `seed_minimal_data.sql` violate it. -/
theorem c3_rebuild_zone_consistent :
    ∀ (cat : List DimIndicator) (obs : List FactIndicator) (now : Nat)
      (r : FactSummary), r ∈ rebuildSummary cat obs now →
      r.zone = zoneOf r.score_total := by
  intro cat obs now r hr
  obtain ⟨key, -, rfl⟩ := mem_rebuild cat obs now r hr
  rfl

/-- Witness for `c3_rebuild_zone_consistent` at the Scenario-A data. -/
theorem c3_rebuild_zone_consistent_witness :
    (summaryRow catA obsA 0 (1, 1)).zone =
      zoneOf (summaryRow catA obsA 0 (1, 1)).score_total :=
  c3_rebuild_zone_consistent catA obsA 0 _ (by with_unfolding_all decide)

/-- Claim C7: the NULL-score repair of `fix_fact_indicator_scores.sql`
copies `value_raw` into a NULL `score` when `value_raw` is present, sets
`score = 0` when both are NULL, leaves non-NULL scores unchanged, and
leaves no NULL score behind (so no partition sum can be NULL). -/
theorem c7_null_safety :
    ∀ fi : FactIndicator,
      (repairObservation fi).score.isSome = true ∧
      (fi.score = none → fi.value_raw ≠ none →
        (repairObservation fi).score = fi.value_raw) ∧
      (fi.score = none → fi.value_raw = none →
        (repairObservation fi).score = some 0) ∧
      (fi.score ≠ none → (repairObservation fi).score = fi.score) := by
  intro fi
  rcases fi with ⟨m, p, i, v, vr, sc⟩
  cases sc <;> cases vr <;>
    simp [repairObservation, fixNullZero, fixNullFromRaw]

/-- Witness for `c7_null_safety`: an observation with both fields NULL is
repaired to score 0. -/
theorem c7_null_safety_witness :
    (repairObservation ⟨1, 1, 1, 1, none, none⟩).score = some 0 :=
  (c7_null_safety ⟨1, 1, 1, 1, none, none⟩).2.2.1 rfl rfl

/-- Claim C10: all five mutating statements of the fix-zero-scores script
(the three catalog UPDATEs, `DELETE FROM fact_summary`, and the rebuild
INSERT) lie inside its single `BEGIN TRANSACTION ... COMMIT` block, so
running the script to completion equals the modelled run, and a failure at
any of the five statements rolls back to exactly the initial state — no
aggregate row is lost to a failed recompute. -/
theorem c10_txn_atomicity :
    ∀ (db : DB) (now : Nat),
      runAll (fixZeroScript now) db = fixZeroScoresRun db now ∧
      (∀ k, k < (fixZeroScript now).preTxn.length +
          (fixZeroScript now).txn.length →
        runFailAt (fixZeroScript now) k db = db) := by
  intro db now
  refine ⟨rfl, ?_⟩
  intro k hk
  simp [runFailAt, fixZeroScript, applyAll]

/-- Witness for `c10_txn_atomicity`: a failure at the DELETE statement of
the script leaves the Scenario-A database unchanged. -/
theorem c10_txn_atomicity_witness :
    runAll (fixZeroScript 0) dbA = fixZeroScoresRun dbA 0 ∧
    runFailAt (fixZeroScript 0) 3 dbA = dbA :=
  ⟨(c10_txn_atomicity dbA 0).1, (c10_txn_atomicity dbA 0).2 3 (by decide)⟩

/-- Mapping the catalog repair twice equals mapping it once. -/
lemma mapRepair_idem (l : List DimIndicator) :
    (l.map repairIndicator).map repairIndicator = l.map repairIndicator := by
  rw [List.map_map]
  apply List.map_congr_left
  intro di _
  simp only [Function.comp_apply]
  exact repairIndicator_idem di

/-- Two database states with equal tables are equal. -/
lemma DBeq (a b : DB) (h1 : a.dim_indicator = b.dim_indicator)
    (h2 : a.fact_indicator = b.fact_indicator)
    (h3 : a.fact_summary = b.fact_summary)
    (h4 : a.dim_methodology = b.dim_methodology) : a = b := by
  cases a; cases b; simp_all

/-- Claim C5, counterexample: running the fix-zero-scores script twice on
the unchanged Scenario-A observations (second run at a later `NOW()`)
yields `fact_summary` rows that are not byte-identical to the first run's —
the rows differ in `updated_at`. -/
theorem c5_counterexample :
    (fixZeroScoresRun (fixZeroScoresRun dbA 0) 1).fact_summary ≠
      (fixZeroScoresRun dbA 0).fact_summary := by
  with_unfolding_all decide

/-- Claim C5, amended: the run is idempotent up to the `updated_at`
timestamp: a second run over unchanged observations produces exactly the
state a single run at the second run's `NOW()` would, and the aggregate
rows of runs at different times agree on every column except
`updated_at`. -/
theorem c5_idempotent_modulo_time :
    ∀ (db : DB) (t1 t2 : Nat),
      fixZeroScoresRun (fixZeroScoresRun db t1) t2 = fixZeroScoresRun db t2 ∧
      ((fixZeroScoresRun db t1).fact_summary).map summarySansTime =
        ((fixZeroScoresRun db t2).fact_summary).map summarySansTime := by
  intro db t1 t2
  constructor
  · refine DBeq _ _ ?_ rfl ?_ rfl
    · rw [run_dim_indicator, run_dim_indicator, run_dim_indicator,
        mapRepair_idem]
    · rw [run_fact_summary, run_fact_summary, run_dim_indicator,
        mapRepair_idem, run_fact_indicator]
  · rw [run_fact_summary, run_fact_summary]
    unfold rebuildSummary
    rw [List.map_map, List.map_map]
    exact List.map_congr_left (fun key _ => rfl)

/-- Claim C6: the catalog repair infers an unset classification from the
criterion-code naming convention (`pub_` → public, `closed_` → closed,
`pen_` → penalty) and persists it, never overwrites a `rating_type` that
is already set, never clears an `is_penalty` flag that is already set; and
(Scenario E) an observation with score 5 of an unclassified `pub_`
criterion ends up, after repair and rebuild, in the public partition sum. -/
theorem c6_repair_inference :
    (∀ di : DimIndicator, di.rating_type ≠ none →
        (repairIndicator di).rating_type = di.rating_type) ∧
    (∀ di : DimIndicator, di.is_penalty = true →
        (repairIndicator di).is_penalty = true) ∧
    (∀ di : DimIndicator, di.rating_type = none → likePub di.code = true →
        (repairIndicator di).rating_type = some "ПУБЛИЧНЫЙ") ∧
    (∀ di : DimIndicator, di.rating_type = none → likeClosed di.code = true →
        (repairIndicator di).rating_type = some "ЗАКРЫТЫЙ") ∧
    (∀ di : DimIndicator, likePen di.code = true →
        (repairIndicator di).is_penalty = true) ∧
    (fixZeroScoresRun dbE 0).fact_summary =
      [⟨1, 1, 1, 5, 0, 0, 5, "Красная", 0⟩] := by
  refine ⟨?_, ?_, ?_, ?_, ?_, ?_⟩
  · intro di h
    rcases di with ⟨i, c, rt, pen⟩
    cases rt with
    | none => exact absurd rfl h
    | some v =>
      by_cases hn : likePen c <;> cases pen <;>
        simp [repairIndicator, step1Pub, step1Closed, step1Pen, hn]
  · intro di h
    rcases di with ⟨i, c, rt, pen⟩
    subst h
    by_cases hp : likePub c <;> by_cases hc : likeClosed c <;> cases rt <;>
      simp [repairIndicator, step1Pub, step1Closed, step1Pen, hp, hc]
  · intro di h hl
    rcases di with ⟨i, c, rt, pen⟩
    cases h
    by_cases hn : likePen c <;> cases pen <;>
      simp [repairIndicator, step1Pub, step1Closed, step1Pen, hl, hn]
  · intro di h hl
    rcases di with ⟨i, c, rt, pen⟩
    cases h
    have hp := likePub_eq_false_of_likeClosed c hl
    by_cases hn : likePen c <;> cases pen <;>
      simp [repairIndicator, step1Pub, step1Closed, step1Pen, hl, hp, hn]
  · intro di hl
    rcases di with ⟨i, c, rt, pen⟩
    cases pen <;> cases rt <;> by_cases hp : likePub c <;>
      by_cases hc : likeClosed c <;>
      simp [repairIndicator, step1Pub, step1Closed, step1Pen, hl, hp, hc]
  · with_unfolding_all decide

/-- Witness for `c6_repair_inference` at concrete catalog rows. -/
theorem c6_repair_inference_witness :
    (repairIndicator ⟨7, "pub_9", some "ЗАКРЫТЫЙ", false⟩).rating_type =
      some "ЗАКРЫТЫЙ" ∧
    (repairIndicator ⟨8, "pub_9", none, true⟩).is_penalty = true ∧
    (repairIndicator ⟨9, "pub_9", none, false⟩).rating_type =
      some "ПУБЛИЧНЫЙ" ∧
    (repairIndicator ⟨10, "closed_3", none, false⟩).rating_type =
      some "ЗАКРЫТЫЙ" ∧
    (repairIndicator ⟨11, "pen_2", none, false⟩).is_penalty = true :=
  ⟨c6_repair_inference.1 _ (by simp),
   c6_repair_inference.2.1 _ rfl,
   c6_repair_inference.2.2.1 _ rfl (by with_unfolding_all decide),
   c6_repair_inference.2.2.2.1 _ rfl (by with_unfolding_all decide),
   c6_repair_inference.2.2.2.2.1 _ (by with_unfolding_all decide)⟩

/-- Joined-relation cons step, matched row. -/
lemma rowsFor_cons_some (cat : List DimIndicator) (mo p : Nat)
    (fi : FactIndicator) (rest : List FactIndicator)
    (r : FactIndicator × DimIndicator) (h : joinRow cat mo p fi = some r) :
    rowsFor cat (fi :: rest) mo p = r :: rowsFor cat rest mo p := by
  simp [rowsFor, List.filterMap_cons, h]

/-- Joined-relation cons step, dropped row. -/
lemma rowsFor_cons_none (cat : List DimIndicator) (mo p : Nat)
    (fi : FactIndicator) (rest : List FactIndicator)
    (h : joinRow cat mo p fi = none) :
    rowsFor cat (fi :: rest) mo p = rowsFor cat rest mo p := by
  simp [rowsFor, List.filterMap_cons, h]

/-- Partition-sum cons step. -/
lemma caseSum_cons (r : FactIndicator × DimIndicator)
    (rows : List (FactIndicator × DimIndicator))
    (sel : DimIndicator → Bool) :
    caseSum (r :: rows) sel =
      (if sel r.2 then scoreOf r.1 else 0) + caseSum rows sel := by
  simp [caseSum]

/-- Observation-sum cons step, row in group. -/
lemma obsSum_cons_true (fi : FactIndicator) (rest : List FactIndicator)
    (mo p : Nat) (h : (fi.mo_id == mo && fi.period_id == p) = true) :
    obsSum (fi :: rest) mo p = scoreOf fi + obsSum rest mo p := by
  simp [obsSum, List.filter_cons, h]

/-- Observation-sum cons step, row outside group. -/
lemma obsSum_cons_false (fi : FactIndicator) (rest : List FactIndicator)
    (mo p : Nat) (h : ¬(fi.mo_id == mo && fi.period_id == p) = true) :
    obsSum (fi :: rest) mo p = obsSum rest mo p := by
  simp [obsSum, List.filter_cons, h]

/-- The three partition sums of a group add up to the plain sum of its
observation scores, given a well-classified catalog in which every
observation's criterion resolves. -/
lemma partitionSumAux (cat : List DimIndicator)
    (hcat : ∀ di ∈ cat, wellClassified di) (mo p : Nat) :
    ∀ obs : List FactIndicator,
      (∀ fi ∈ obs, (findIndicator cat fi.ind_id).isSome = true) →
      caseSum (rowsFor cat obs mo p) isPub +
        caseSum (rowsFor cat obs mo p) isClosedT +
        caseSum (rowsFor cat obs mo p) isPen = obsSum obs mo p := by
  intro obs
  induction obs with
  | nil => intro _; simp [rowsFor, caseSum, obsSum]
  | cons fi rest ih =>
    intro hres
    have hfi : (findIndicator cat fi.ind_id).isSome = true :=
      hres fi (List.mem_cons_self _ _)
    have hr := ih (fun f hf => hres f (List.mem_cons_of_mem _ hf))
    by_cases ha : (fi.mo_id == mo) = true
    · by_cases hb : (fi.period_id == p) = true
      · cases hsc : fi.score with
        | none =>
          have hj : joinRow cat mo p fi = none := by
            simp [joinRow, ha, hb, hsc]
          rw [rowsFor_cons_none cat mo p fi rest hj,
            obsSum_cons_true fi rest mo p (by simp [ha, hb])]
          have hz : scoreOf fi = 0 := by simp [scoreOf, hsc]
          rw [hz, zero_add]
          exact hr
        | some s =>
          obtain ⟨di, hdi⟩ := Option.isSome_iff_exists.mp hfi
          have hmem : di ∈ cat := List.mem_of_find?_eq_some hdi
          have hw := hcat di hmem
          have hj : joinRow cat mo p fi = some (fi, di) := by
            simp [joinRow, ha, hb, hsc, findIndicator] at hdi ⊢
            simp [hdi]
          rw [rowsFor_cons_some cat mo p fi rest _ hj,
            obsSum_cons_true fi rest mo p (by simp [ha, hb]),
            caseSum_cons, caseSum_cons, caseSum_cons]
          have hrow := rowClassified di hw (scoreOf fi)
          dsimp only at hrow ⊢
          linarith [hr, hrow]
      · have hj : joinRow cat mo p fi = none := by simp [joinRow, hb]
        rw [rowsFor_cons_none cat mo p fi rest hj,
          obsSum_cons_false fi rest mo p (by simp [hb])]
        exact hr
    · have hj : joinRow cat mo p fi = none := by simp [joinRow, ha]
      rw [rowsFor_cons_none cat mo p fi rest hj,
        obsSum_cons_false fi rest mo p (by simp [ha])]
      exact hr

/-- Claim C4: with a mutually-exclusively classified catalog in which
every observation's criterion resolves, the pre-floor sum
`score_public + score_closed + score_penalties` of a rebuilt aggregate
equals the sum of all observation scores of that entity and period, and
the three partition predicates are exhaustive and pairwise disjoint on the
catalog — no observation is dropped or double-counted. -/
theorem c4_partition_exhaustive :
    ∀ (cat : List DimIndicator) (obs : List FactIndicator) (now : Nat)
      (mo p : Nat),
      (∀ di ∈ cat, wellClassified di) →
      (∀ fi ∈ obs, (findIndicator cat fi.ind_id).isSome = true) →
      ((summaryRow cat obs now (mo, p)).score_public +
        (summaryRow cat obs now (mo, p)).score_closed +
        (summaryRow cat obs now (mo, p)).score_penalties =
          obsSum obs mo p) ∧
      (∀ di ∈ cat,
        (isPub di = true ∨ isClosedT di = true ∨ isPen di = true) ∧
        ¬(isPub di = true ∧ isClosedT di = true) ∧
        ¬(isPub di = true ∧ isPen di = true) ∧
        ¬(isClosedT di = true ∧ isPen di = true)) := by
  intro cat obs now mo p hcat hres
  constructor
  · exact partitionSumAux cat hcat mo p obs hres
  · intro di hdi
    rcases hcat di hdi with ⟨h1, h2⟩ | ⟨h1, h2⟩ | ⟨h1, h2, h3⟩ <;>
      simp [isPub, isClosedT, isPen, h1, h2] <;> simp [h3]

/-- Witness for `c4_partition_exhaustive` at the Scenario-A data:
8 + 4 + (−3) equals the sum 3 + 5 + 4 + (−3) of all four scores. -/
theorem c4_partition_exhaustive_witness :
    ((summaryRow catA obsA 0 (1, 1)).score_public +
      (summaryRow catA obsA 0 (1, 1)).score_closed +
      (summaryRow catA obsA 0 (1, 1)).score_penalties =
        obsSum obsA 1 1) ∧
    (∀ di ∈ catA,
      (isPub di = true ∨ isClosedT di = true ∨ isPen di = true) ∧
      ¬(isPub di = true ∧ isClosedT di = true) ∧
      ¬(isPub di = true ∧ isPen di = true) ∧
      ¬(isClosedT di = true ∧ isPen di = true)) :=
  c4_partition_exhaustive catA obsA 0 1 1
    (by with_unfolding_all decide) (by with_unfolding_all decide)

/-- Claim C8, counterexample: municipality 2 exists in the entity catalog
(`dimMoC8`) but has no observations; after the clear-and-rebuild
aggregation over the Scenario-A data the summary holds exactly one row,
for municipality 1 — municipality 2 gets no zero row, it gets no row at
all. -/
theorem c8_counterexample :
    2 ∈ dimMoC8 ∧
    (rebuildSummary catA obsA 0).map (fun r => r.mo_id) = [1] ∧
    (rebuildSummary catA obsA 0).filter (fun r => r.mo_id == 2) = [] := by
  with_unfolding_all decide

/-- Claim C8, amended: the clear-and-rebuild aggregation emits a row only
for `(entity, period)` pairs that occur among the observations — an entity
with no observations is a missing row, not a zero row; only the
`dim_mo`-driven insert of `etl/fill_rating_data.sql` gives such an entity
a defined row, and there it is all-zero with zone red. -/
theorem c8_no_row_without_observations :
    (∀ (cat : List DimIndicator) (obs : List FactIndicator) (now : Nat)
        (r : FactSummary), r ∈ rebuildSummary cat obs now →
        ∃ fi, fi ∈ obs ∧ fi.mo_id = r.mo_id ∧ fi.period_id = r.period_id) ∧
    (∀ (cat : List DimIndicator) (obs : List FactIndicator)
        (pens : List FactPenalty) (mo p v : Nat),
        fillObs obs mo p v = [] →
        pens.filter (fun pe =>
          pe.mo_id == mo && pe.period_id == p && pe.version_id == v) = [] →
        fillSummaryRow cat obs pens mo p v =
          ⟨mo, p, v, 0, 0, 0, 0, "red", 0⟩) := by
  constructor
  · intro cat obs now r hr
    obtain ⟨key, hk, rfl⟩ := mem_rebuild cat obs now r hr
    unfold groupKeys at hk
    obtain ⟨fi, hfi, heq⟩ := List.mem_filterMap.mp (List.mem_dedup.mp hk)
    by_cases hcond :
        (fi.score.isSome && (findIndicator cat fi.ind_id).isSome) = true
    · rw [if_pos hcond] at heq
      obtain ⟨h1, h2⟩ := Prod.mk.injEq .. ▸ Option.some.inj heq
      exact ⟨fi, hfi, h1, h2⟩
    · rw [if_neg hcond] at heq
      exact absurd heq (by simp)
  · intro cat obs pens mo p v h1 h2
    have hz : fillPenSum pens mo p v = 0 := by
      unfold fillPenSum
      rw [h2]
      rfl
    unfold fillSummaryRow fillCodeSum fillScoreTotal zoneOfEn
    rw [h1, hz]
    norm_num [pgRound]

/-- Witness for `c8_no_row_without_observations`: the single rebuilt
Scenario-A row traces back to an observation, and municipality 2 — with no
observations and no penalties — gets the all-zero red row under the
fill-script aggregation. -/
theorem c8_no_row_without_observations_witness :
    (∃ fi, fi ∈ obsA ∧ fi.mo_id = (summaryRow catA obsA 0 (1, 1)).mo_id ∧
      fi.period_id = (summaryRow catA obsA 0 (1, 1)).period_id) ∧
    fillSummaryRow catF obsF pensF 2 1 1 = ⟨2, 1, 1, 0, 0, 0, 0, "red", 0⟩ :=
  ⟨c8_no_row_without_observations.1 catA obsA 0 _
      (by with_unfolding_all decide),
   c8_no_row_without_observations.2 catF obsF pensF 2 1 1
      (by with_unfolding_all decide) (by with_unfolding_all decide)⟩

/-- Claim C9, counterexample, at reachable states: when the compact-fill's
methodology lookup does not resolve — `'v1.0'` absent from a nonempty
catalog — its INSERT silently emits zero rows (an empty insert, so no
constraint can fire) instead of failing with `MissingMethodology`; and the
fix-zero-scores rebuild stamps `version_id = 1` on every row and produces
byte-identical output whether the catalog holds one methodology version or
two — the version is the hard-coded constant 1, not a threaded
parameter. -/
theorem c9_counterexample :
    lookupV10 [⟨2, "v2.0"⟩] = none ∧
    compactInsertKeys [1, 2, 3] [⟨2, "v2.0"⟩] 7 = [] ∧
    ((fixZeroScoresRun dbE 0).fact_summary).map (fun r => r.version_id) =
      [1] ∧
    ((fixZeroScoresRun dbE2 0).fact_summary).map (fun r => r.version_id) =
      [1] ∧
    (fixZeroScoresRun dbE2 0).fact_summary =
      (fixZeroScoresRun dbE 0).fact_summary := by
  with_unfolding_all decide

/-- Claim C9, amended: no `MissingMethodology` failure and no version
threading exist.  In any state whose methodology catalog contains version
1 — the only states where the rebuild INSERT's foreign key lets the
transaction commit — every rebuilt row carries the hard-coded constant
`version_id = 1`, and the run reads nothing else from (and writes nothing
to) `dim_methodology`; the compact-fill, when its `'v1.0'` lookup does not
resolve, emits zero rows instead of an error. -/
theorem c9_version_constant :
    (∀ (db : DB) (now : Nat) (r : FactSummary),
        (∃ m ∈ db.dim_methodology, m.version_id = 1) →
        r ∈ (fixZeroScoresRun db now).fact_summary → r.version_id = 1) ∧
    (∀ (mos : List Nat) (ms : List DimMethodology) (p : Nat),
        lookupV10 ms = none → compactInsertKeys mos ms p = []) ∧
    (∀ (db : DB) (now : Nat),
        (fixZeroScoresRun db now).dim_methodology = db.dim_methodology) := by
  refine ⟨?_, ?_, fun db now => rfl⟩
  · intro db now r _ hr
    rw [run_fact_summary] at hr
    obtain ⟨key, -, rfl⟩ := mem_rebuild _ _ _ _ hr
    rfl
  · intro mos ms p h
    unfold compactInsertKeys
    rw [h]

/-- Witness for `c9_version_constant` at the Scenario-E database (catalog
holding version 1) and at a nonempty methodology list without `'v1.0'`. -/
theorem c9_version_constant_witness :
    (summaryRow (catE.map repairIndicator) obsE 0 (1, 1)).version_id = 1 ∧
    compactInsertKeys [1, 2] [⟨2, "v2.0"⟩] 5 = [] ∧
    (fixZeroScoresRun dbA 0).dim_methodology = dbA.dim_methodology :=
  ⟨c9_version_constant.1 dbE 0 _ (by with_unfolding_all decide)
      (by with_unfolding_all decide),
   c9_version_constant.2.1 [1, 2] [⟨2, "v2.0"⟩] 5
      (by with_unfolding_all decide),
   c9_version_constant.2.2 dbA 0⟩

end Reyting
